import Mathlib

/-!
Verification development for the verifiable wallet-transaction explainer
(`server.py`).  The Python source is shallowly embedded: pure computations
become Lean functions; every outbound HTTP call (chain lookup, receipt
lookup, LLM inference) is replaced by an explicit parameter describing the
outcome of that call; Python exceptions become `Option`/`Except` values.
Machine arithmetic: the source parses hexadecimal integers with `int(s, 16)`
(arbitrary precision, modelled by `Nat`) and formats quotients with
`f"{x:.6f}"` after a float division; the formatting is modelled by exact
rational rounding (round half to even) of `numer / denom`, which agrees with
the double-precision source on all inputs exercised here.
-/

/-! ### Small string / number helpers (semantics of Python primitives) -/

/-- Value of one hexadecimal digit, `none` for a non-digit.  Models the
per-character behaviour of Python's `int(_, 16)`. -/
def hexDigitVal? (c : Char) : Option Nat :=
  if '0' ≤ c ∧ c ≤ '9' then some (c.toNat - '0'.toNat)
  else if 'a' ≤ c ∧ c ≤ 'f' then some (c.toNat - 'a'.toNat + 10)
  else if 'A' ≤ c ∧ c ≤ 'F' then some (c.toNat - 'A'.toNat + 10)
  else none

/-- Accumulating hexadecimal evaluation, most significant digit first. -/
def hexAux : Nat → List Char → Option Nat
  | acc, [] => some acc
  | acc, c :: cs =>
    match hexDigitVal? c with
    | some d => hexAux (16 * acc + d) cs
    | none => none

/-- `leadsWith pat l` is true when `pat` is an initial segment of `l`. -/
def leadsWith : List Char → List Char → Bool
  | [], _ => true
  | _ :: _, [] => false
  | a :: as, b :: bs => a == b && leadsWith as bs

/-- Python's `pat in s` substring test, on character lists. -/
def hasSub (pat : List Char) : List Char → Bool
  | [] => pat.isEmpty
  | c :: rest => leadsWith pat (c :: rest) || hasSub pat rest

/-- Python `s.startswith(pre)` (the model of `str.startswith`), computed on
the character lists. -/
def strStartsWith (s pre : String) : Bool := leadsWith pre.toList s.toList

/-- Python `s.strip()`: drop leading and trailing whitespace (the source
only ever strips ASCII whitespace around hex hashes). -/
def pyTrim (s : String) : String :=
  String.mk (((s.toList.dropWhile Char.isWhitespace).reverse.dropWhile
    Char.isWhitespace).reverse)

/-- Python `int(s, 16)` on the nonnegative strings the explorer API returns:
an optional `0x`/`0X` lead-in followed by at least one hex digit; `none`
models the `ValueError` raised on anything else. -/
def parseHex? (s : String) : Option Nat :=
  let body := if strStartsWith s "0x" || strStartsWith s "0X" then s.drop 2 else s
  if body.isEmpty then none else hexAux 0 body.toList

/-- Left-pad a string with `'0'` up to width `w`. -/
def zeroPad (w : Nat) (s : String) : String :=
  if w ≤ s.length then s else String.mk (List.replicate (w - s.length) '0') ++ s

/-- Round `scaled / denom` to the nearest integer, ties to even. -/
def roundHalfEven (scaled denom : Nat) : Nat :=
  let q := scaled / denom
  let r := scaled % denom
  if 2 * r < denom then q
  else if 2 * r > denom then q + 1
  else if q % 2 = 0 then q else q + 1

/-- Decimal rendering of `numer / denom` with exactly `decimals` fractional
digits: the model of Python's fixed-point float formatting (for example
`f"{x:.6f}"`), carried out in exact arithmetic. -/
def formatFixed (numer denom decimals : Nat) : String :=
  let n := roundHalfEven (numer * 10 ^ decimals) denom
  toString (n / 10 ^ decimals) ++ "." ++ zeroPad decimals (toString (n % 10 ^ decimals))

/-- Insert a `','` after every three characters of a reversed digit list:
helper for `formatWithCommas`. -/
def commasRev : List Char → List Char
  | a :: b :: c :: d :: rest => a :: b :: c :: ',' :: commasRev (d :: rest)
  | l => l

/-- Python `f"{n:,}"` on a natural number: digits grouped in threes. -/
def formatWithCommas (n : Nat) : String :=
  String.mk (commasRev (toString n).toList.reverse).reverse

/-- Python `x or dflt` on an optional string: the default is taken when the
value is absent or empty (falsy). -/
def pyOrStr (x : Option String) (dflt : String) : String :=
  match x with
  | some s => if s == "" then dflt else s
  | none => dflt

/-- Python truthiness of an optional string. -/
def truthyStr : Option String → Bool
  | some s => s != ""
  | none => false

/-! ### Data model -/

/-- One entry of the EVM chain registry (`ETHERSCAN_V2_CHAINS` rows). -/
structure Chain where
  name : String
  chainid : Nat
  symbol : String
  explorer : String
deriving Repr, DecidableEq

/-- The chain registry, verbatim from the source. -/
def ETHERSCAN_V2_CHAINS : List Chain :=
  [ ⟨"Ethereum", 1, "ETH", "https://etherscan.io"⟩,
    ⟨"Base", 8453, "ETH", "https://basescan.org"⟩,
    ⟨"Arbitrum One", 42161, "ETH", "https://arbiscan.io"⟩,
    ⟨"Optimism", 10, "ETH", "https://optimistic.etherscan.io"⟩,
    ⟨"Polygon", 137, "MATIC", "https://polygonscan.com"⟩,
    ⟨"BNB Chain", 56, "BNB", "https://bscscan.com"⟩,
    ⟨"Avalanche C", 43114, "AVAX", "https://snowscan.xyz"⟩,
    ⟨"Fantom", 250, "FTM", "https://ftmscan.com"⟩,
    ⟨"Linea", 59144, "ETH", "https://lineascan.build"⟩,
    ⟨"Scroll", 534352, "ETH", "https://scrollscan.com"⟩,
    ⟨"Blast", 81457, "ETH", "https://blastscan.io"⟩,
    ⟨"Mantle", 5000, "MNT", "https://mantlescan.xyz"⟩,
    ⟨"Celo", 42220, "CELO", "https://celoscan.io"⟩,
    ⟨"Gnosis", 100, "xDAI", "https://gnosisscan.io"⟩,
    ⟨"Cronos", 25, "CRO", "https://cronoscan.com"⟩,
    ⟨"zkSync Era", 324, "ETH", "https://explorer.zksync.io"⟩,
    ⟨"Polygon zkEVM", 1101, "ETH", "https://zkevm.polygonscan.com"⟩,
    ⟨"Base Sepolia", 84532, "ETH", "https://sepolia.basescan.org"⟩,
    ⟨"Sepolia", 11155111, "ETH", "https://sepolia.etherscan.io"⟩ ]

/-- One receipt log entry, with the fields the source reads.  `data` is
`none` when the key is missing (the source substitutes `"0x0"`); `address`
is read unconditionally (`log["address"]`). -/
structure RawLog where
  address : String
  topics : List String
  data : Option String
deriving Repr, DecidableEq

/-- A transaction receipt as returned by the explorer API; each field is
`none` when the corresponding key is absent. -/
structure RawReceipt where
  status : Option String
  gasUsed : Option String
  logs : List RawLog
deriving Repr, DecidableEq

/-- A raw transaction object (`eth_getTransactionByHash` result); each field
is `none` when the key is absent or holds JSON `null`. -/
structure RawTx where
  value : Option String
  gasPrice : Option String
  gas : Option String
  blockNumber : Option String
  fromAddr : Option String
  toAddr : Option String
  inputData : Option String
  nonce : Option String
deriving Repr, DecidableEq

/-- The `result` field of the first explorer call: absent/JSON-null (falsy),
a string placeholder (including `"null"`), or a transaction object.  Other
falsy or malformed shapes behave like the first two cases in the source
(they are rejected or raise inside the `try`, both yielding `None`). -/
inductive JResult where
  | absent
  | nullv
  | strv (s : String)
  | objv (tx : RawTx)
deriving Repr, DecidableEq

/-- Outcome of the receipt call: `err` models an exception while fetching or
reading the receipt (including a non-dict `result`); `ok none` models a
falsy receipt (`result` key missing or JSON null). -/
inductive ReceiptOutcome where
  | err
  | ok (receipt : Option RawReceipt)
deriving Repr, DecidableEq

/-- What querying one chain yields: `netErr` models an exception in the
transaction lookup itself (network error, timeout, malformed JSON body);
otherwise the parsed `result` plus the receipt outcome. -/
inductive FetchResult where
  | netErr
  | response (result : JResult) (rec : ReceiptOutcome)
deriving Repr, DecidableEq

/-- One decoded ERC-20 transfer summary. -/
structure TokenTransfer where
  token : String
  amount : String
  fromAddr : String
  toAddr : String
deriving Repr, DecidableEq

/-- The normalized transaction dict built by `fetch_tx_from_chain` /
`get_fallback_transaction`. -/
structure NormalizedTx where
  hash : String
  fromAddr : String
  toAddr : String
  value : String
  gasUsed : Nat
  gasPrice : String
  gasFeeETH : String
  blockNumber : Nat
  status : String
  chain : String
  chainExplorer : String
  symbol : String
  tokenTransfers : List TokenTransfer
  isContractCall : Bool
  inputData : String
  nonce : Nat
deriving Repr, DecidableEq

/-! ### Transaction fetching -/

/-- ERC-20 Transfer event signature topic, verbatim from the source. -/
def transfer_topic : String :=
  "0xddf252ad1be2c89b69c2b068fc378daa952ba7f163c4a11628f55a4df523b3ef"

/-- The source's log filter: `topics and topics[0] == transfer_topic and
len(topics) >= 3`. -/
def qualifies (log : RawLog) : Bool :=
  !log.topics.isEmpty && log.topics.headD "" == transfer_topic
    && decide (3 ≤ log.topics.length)

/-- Decode one qualifying log into a transfer summary; `none` models the
`ValueError` raised by `int(log.get("data", "0x0"), 16)` on malformed data
(which aborts the whole fetch). -/
def decodeTransfer (log : RawLog) : Option TokenTransfer :=
  (parseHex? (log.data.getD "0x0")).map fun raw =>
    { token := log.address.take 10 ++ "..."
      amount := toString raw
      fromAddr := "0x" ++ (log.topics.getD 1 "").takeRight 40
      toAddr := "0x" ++ (log.topics.getD 2 "").takeRight 40 }

/-- The transfer-collection loop over the receipt's logs: qualifying logs
are decoded in order, and a decoding failure aborts the fetch (`none`). -/
def collectTransfers : List RawLog → Option (List TokenTransfer)
  | [] => some []
  | log :: rest =>
    if qualifies log then do
      let t ← decodeTransfer log
      let ts ← collectTransfers rest
      pure (t :: ts)
    else collectTransfers rest

/-- Logs of an optional receipt; a falsy receipt contributes none (the
source guards with `if receipt and receipt.get("logs")`, and an empty log
list yields no transfers either way). -/
def receiptLogs : Option RawReceipt → List RawLog
  | some rc => rc.logs
  | none => []

/-- `gasUsed` of the receipt when one was retrieved, else the transaction's
gas limit (line `gas_used = int(receipt.get("gasUsed", "0x0"), 16) if receipt
else gas_limit`). -/
def gasUsedOf (receipt : Option RawReceipt) (gas_limit : Nat) : Option Nat :=
  match receipt with
  | some rc => parseHex? (rc.gasUsed.getD "0x0")
  | none => some gas_limit

/-- `receipt and receipt.get("status") == "0x1"`. -/
def receiptSuccess : Option RawReceipt → Bool
  | some rc => rc.status == some "0x1"
  | none => false

/-- `fetch_tx_from_chain`: build the normalized transaction from one
chain's responses; `none` on any failure (the source's `except` clause). -/
def fetch_tx_from_chain (tx_hash : String) (chain : Chain) (fr : FetchResult) :
    Option NormalizedTx :=
  match fr with
  | .netErr => none
  | .response result receiptOut =>
    match result with
    | .absent => none
    | .nullv => none
    | .strv _ => none
    | .objv tx =>
      match receiptOut with
      | .err => none
      | .ok receipt => do
        let value_wei ← parseHex? (tx.value.getD "0x0")
        let gas_price_wei ← parseHex? (tx.gasPrice.getD "0x0")
        let gas_limit ← parseHex? (tx.gas.getD "0x0")
        let block_number ← parseHex? (tx.blockNumber.getD "0x0")
        let gas_used ← gasUsedOf receipt gas_limit
        let nonce ← parseHex? (tx.nonce.getD "0x0")
        let token_transfers ← collectTransfers (receiptLogs receipt)
        let symbol := chain.symbol
        some
          { hash := tx_hash
            fromAddr := tx.fromAddr.getD "unknown"
            toAddr := pyOrStr tx.toAddr "Contract Creation"
            value :=
              if value_wei > 0 then formatFixed value_wei (10 ^ 18) 6 ++ " " ++ symbol
              else "0 " ++ symbol
            gasUsed := gas_used
            gasPrice := formatFixed gas_price_wei (10 ^ 9) 2 ++ " gwei"
            gasFeeETH := formatFixed (gas_used * gas_price_wei) (10 ^ 18) 6 ++ " " ++ symbol
            blockNumber := block_number
            status := if receiptSuccess receipt then "Success" else "Failed"
            chain := chain.name
            chainExplorer := chain.explorer ++ "/tx/" ++ tx_hash
            symbol := symbol
            tokenTransfers := token_transfers.take 5
            isContractCall := tx.inputData.getD "0x" != "0x"
            inputData := (tx.inputData.getD "0x").take 100
            nonce := nonce }

/-- `fetch_real_transaction`: scan the first six registry chains, then the
remainder, returning the first hit; the per-chain outcomes are supplied by
`world`. -/
def fetch_real_transaction (tx_hash : String) (world : Chain → FetchResult) :
    Option NormalizedTx :=
  let priority_chains := ETHERSCAN_V2_CHAINS.take 6
  let other_chains := ETHERSCAN_V2_CHAINS.drop 6
  match priority_chains.findSome? (fun c => fetch_tx_from_chain tx_hash c (world c)) with
  | some r => some r
  | none => other_chains.findSome? (fun c => fetch_tx_from_chain tx_hash c (world c))

/-- `get_fallback_transaction`, verbatim. -/
def get_fallback_transaction (tx_hash : String) : NormalizedTx :=
  { hash := tx_hash
    fromAddr := "unknown"
    toAddr := "unknown"
    value := "unknown"
    gasUsed := 0
    gasPrice := "unknown"
    gasFeeETH := "unknown"
    blockNumber := 0
    status := "Unknown"
    chain := "Unknown"
    chainExplorer := ""
    symbol := "ETH"
    tokenTransfers := []
    isContractCall := false
    inputData := "0x"
    nonce := 0 }

/-! ### OpenGradient inference -/

/-- Environment facts `get_og_client` reads: whether the SDK import
succeeded, the `OG_PRIVATE_KEY` value (empty when unset), and whether
`og.Client(...)` construction succeeds. -/
structure OGEnv where
  sdk_available : Bool
  private_key : String
  client_init_ok : Bool
deriving Repr, DecidableEq

/-- `get_og_client`: a usable client exists iff the SDK is importable, the
key is non-empty and not a placeholder, and construction succeeds. -/
def get_og_client (env : OGEnv) : Bool :=
  env.sdk_available
    && !(env.private_key == "" || hasSub "YOUR_PRIVATE_KEY".toList env.private_key.toList)
    && env.client_init_ok

/-- What one `client.llm.chat` attempt yields: a raised exception of any
kind (with its message, which the source only logs), or a response whose
extracted explanation is `none` when the response has no `chat_output`
attribute, and whose payment hash may be absent. -/
inductive AttemptOutcome where
  | err (msg : String)
  | ok (explanation : Option String) (payment_hash : Option String)
deriving Repr, DecidableEq

/-- The dict `call_opengradient` returns on success. -/
structure LLMResult where
  explanation : String
  payment_hash : Option String
deriving Repr, DecidableEq

/-- The `for attempt in range(1, max_retries + 1)` loop: any exception is
swallowed and the next attempt made (after `time.sleep(2)` when attempts
remain, a real-time effect with no value-level content); a falsy extracted
explanation also falls through to the next attempt; a truthy explanation
returns immediately. -/
def og_loop (attempts : Nat → AttemptOutcome) : Nat → Nat → Option LLMResult
  | _, 0 => none
  | i, fuel + 1 =>
    match attempts i with
    | .err _ => og_loop attempts (i + 1) fuel
    | .ok none _ => og_loop attempts (i + 1) fuel
    | .ok (some e) ph =>
      if e == "" then og_loop attempts (i + 1) fuel
      else some { explanation := e, payment_hash := ph }

/-- `call_opengradient`: `None` without a client, else at most
`max_retries` attempts (numbered from 1). -/
def call_opengradient (env : OGEnv) (attempts : Nat → AttemptOutcome)
    (max_retries : Nat) : Option LLMResult :=
  if get_og_client env then og_loop attempts 1 max_retries else none

/-! ### Explanation engine -/

/-- The `proof` metadata block of a response. -/
structure ProofMeta where
  paymentHash : String
  model : String
  verifiedByTEE : Bool
  explorerUrl : String
  settlementNetwork : String
  inferenceNetwork : String
  mode : String
deriving Repr, DecidableEq

/-- Explanation text plus proof metadata (`analyze_transaction_data`'s
return value). -/
structure Analysis where
  explanation : String
  proof : ProofMeta
deriving Repr, DecidableEq

/-- `analyze_transaction_data`: the outcome of `call_opengradient` on the
built prompt is the `result` parameter, and `rand_hex` stands for the
`secrets.token_hex(32)` draw used only on the fallback path.  On success the
proof is LIVE/TEE-verified with the real (or sentinel) payment hash; on
failure the explanation is the fixed markdown template over the transaction
fields and the proof is MOCK with the random placeholder hash. -/
def analyze_transaction_data (tx_data : NormalizedTx) (result : Option LLMResult)
    (rand_hex : String) : Analysis :=
  let chain_name := tx_data.chain
  let explorer_link := tx_data.chainExplorer
  match result with
  | some r =>
    { explanation := r.explanation
      proof :=
        { paymentHash := pyOrStr r.payment_hash "verified-no-settlement"
          model := "GEMINI_2_5_FLASH"
          verifiedByTEE := true
          explorerUrl :=
            if truthyStr r.payment_hash then
              "https://explorer.opengradient.ai/tx/" ++ r.payment_hash.getD ""
            else "https://explorer.opengradient.ai"
          settlementNetwork := "Base Sepolia"
          inferenceNetwork := "OpenGradient"
          mode := "LIVE" } }
  | none =>
    { explanation :=
        "## Transaction on " ++ chain_name ++ "\n" ++
        "**Hash:** " ++ tx_data.hash.take 16 ++ "...\n" ++
        "**From:** " ++ tx_data.fromAddr ++ "\n" ++
        "**To:** " ++ tx_data.toAddr ++ "\n" ++
        "**Value:** " ++ tx_data.value ++ "\n" ++
        "**Status:** " ++ tx_data.status ++ "\n" ++
        "**Block:** #" ++ formatWithCommas tx_data.blockNumber ++ "\n" ++
        "**Gas Fee:** " ++ tx_data.gasFeeETH ++ "\n\n" ++
        (if explorer_link != "" then "[View on Explorer](" ++ explorer_link ++ ")" else "")
        ++ "\n\n" ++ "⚠️ AI explanation unavailable — showing raw data."
      proof :=
        { paymentHash := "0x" ++ rand_hex
          model := "fallback (no AI)"
          verifiedByTEE := false
          explorerUrl := "https://explorer.opengradient.ai"
          settlementNetwork := "Base Sepolia"
          inferenceNetwork := "OpenGradient Testnet"
          mode := "MOCK" } }

/-! ### HTTP façade -/

/-- A JSON value as far as the endpoint inspects one. -/
inductive JVal where
  | s (v : String)
  | n (v : Int)
  | boolV (v : Bool)
  | nullV
deriving Repr, DecidableEq

/-- Python `dict.get` on the parsed body (keys are unique). -/
def getField (d : List (String × JVal)) (key : String) : Option JVal :=
  (d.find? (fun p => p.1 == key)).map (·.2)

/-- Python `v.strip()`: only strings have the method; any other value
raises `AttributeError` (caught only at the route boundary). -/
def pyStrip (v : JVal) : Except String String :=
  match v with
  | .s str => .ok (pyTrim str)
  | _ => .error "AttributeError"

/-- The `transaction` block of a success response (the field selection and
renaming done in the route's `jsonify` call). -/
structure TxBlock where
  hash : String
  fromAddr : String
  toAddr : String
  value : String
  gasUsed : Nat
  gasPrice : String
  gasFee : String
  status : String
  block : Nat
  chain : String
  chainExplorer : String
  tokenTransfers : List TokenTransfer
deriving Repr, DecidableEq

/-- Build the response's transaction block from the normalized record. -/
def mkTxBlock (t : NormalizedTx) : TxBlock :=
  { hash := t.hash
    fromAddr := t.fromAddr
    toAddr := t.toAddr
    value := t.value
    gasUsed := t.gasUsed
    gasPrice := t.gasPrice
    gasFee := t.gasFeeETH
    status := t.status
    block := t.blockNumber
    chain := t.chain
    chainExplorer := t.chainExplorer
    tokenTransfers := t.tokenTransfers }

/-- Body of a `200` response. -/
structure SuccessBody where
  transaction : TxBlock
  explanation : String
  proof : ProofMeta
deriving Repr, DecidableEq

/-- The three response shapes of the analyze route. -/
inductive HttpResult where
  | err400 (msg : String)
  | err500
  | ok200 (body : SuccessBody)
deriving Repr, DecidableEq

/-- HTTP status code of a result. -/
def httpStatus : HttpResult → Nat
  | .err400 _ => 400
  | .err500 => 500
  | .ok200 _ => 200

/-- The `/analyze-transaction` route.  `data` is the parsed JSON body
(`none` when absent/falsy; an empty dict is likewise falsy so the hash
defaults to `""`); `world` supplies each chain's lookup outcome, `env` and
`attempts` the inference side, `rand_hex` the fallback hash randomness.
The outer `try/except` turns the strip of a non-string `txHash` into a
generic 500. -/
def analyze_transaction (data : Option (List (String × JVal)))
    (world : Chain → FetchResult) (env : OGEnv)
    (attempts : Nat → AttemptOutcome) (rand_hex : String) : HttpResult :=
  let stripped : Except String String :=
    match data with
    | none => .ok ""
    | some d => if d.isEmpty then .ok "" else pyStrip ((getField d "txHash").getD (.s ""))
  match stripped with
  | .error _ => .err500
  | .ok tx_hash =>
    if tx_hash == "" then .err400 "Please provide a transaction hash."
    else if !strStartsWith tx_hash "0x" || tx_hash.length < 10 then
      .err400 "Hash must start with \x270x\x27 and be valid hex."
    else
      let tx_data := (fetch_real_transaction tx_hash world).getD (get_fallback_transaction tx_hash)
      let analysis := analyze_transaction_data tx_data (call_opengradient env attempts 2) rand_hex
      .ok200
        { transaction := mkTxBlock tx_data
          explanation := analysis.explanation
          proof := analysis.proof }

/-- Decode a list of logs in order, failing if any decoding fails (the
specification-side companion of `collectTransfers`: applied to the
qualifying logs it describes the collected list). -/
def decodeAll : List RawLog → Option (List TokenTransfer)
  | [] => some []
  | log :: rest => do
    let t ← decodeTransfer log
    let ts ← decodeAll rest
    pure (t :: ts)

/-! ### Concrete fixtures used by witnesses and counterexamples -/

/-- A world in which every chain lookup raises a network error. -/
def worldDown : Chain → FetchResult := fun _ => FetchResult.netErr

/-- Inference environment with no SDK and no key configured. -/
def envDown : OGEnv := ⟨false, "", false⟩

/-- Inference environment with a working, configured client. -/
def envUp : OGEnv := ⟨true, "0xabcdef0123", true⟩

/-- Attempt schedule that always raises a connection error. -/
def attDown : Nat → AttemptOutcome := fun _ => AttemptOutcome.err "connection refused"

/-- Attempt schedule whose first attempt raises an ordinary connection
error and whose second attempt succeeds. -/
def attRetry : Nat → AttemptOutcome := fun i =>
  if i = 1 then AttemptOutcome.err "connection refused"
  else AttemptOutcome.ok (some "All good") none

/-- The Ethereum registry entry. -/
def ethereumChain : Chain := ⟨"Ethereum", 1, "ETH", "https://etherscan.io"⟩

/-- A raw transaction moving 1.5 native units at 30 gwei with gas limit
21000 (hex `0x14d1120d7b160000`, `0x6fc23ac00`, `0x5208`). -/
def sampleTx : RawTx :=
  { value := some "0x14d1120d7b160000"
    gasPrice := some "0x6fc23ac00"
    gas := some "0x5208"
    blockNumber := some "0x112a880"
    fromAddr := some "0xsenderaddress"
    toAddr := some "0xrecipientaddress"
    inputData := some "0x"
    nonce := some "0x1" }

/-- A success receipt with gasUsed 21000 and no logs. -/
def sampleReceipt : RawReceipt :=
  { status := some "0x1", gasUsed := some "0x5208", logs := [] }

/-- A qualifying ERC-20 Transfer log entry. -/
def sampleLog : RawLog :=
  { address := "0xtoken00112233445566778899"
    topics := [transfer_topic,
      "0x0000000000000000000000001111111111111111111111111111111111111111",
      "0x0000000000000000000000002222222222222222222222222222222222222222"]
    data := some "0x64" }

/-- A success receipt carrying seven qualifying transfer logs. -/
def sampleReceipt7 : RawReceipt :=
  { status := some "0x1", gasUsed := some "0x5208", logs := List.replicate 7 sampleLog }

/-- The normalized transaction produced by fetching `sampleTx` with
`sampleReceipt` on Ethereum. -/
def sampleNtx : NormalizedTx :=
  (fetch_tx_from_chain "0x1234567890" ethereumChain
    (.response (.objv sampleTx) (.ok (some sampleReceipt)))).getD
    (get_fallback_transaction "0x")

/-- The normalized transaction of the seven-log fetch. -/
def sampleNtx7 : NormalizedTx :=
  (fetch_tx_from_chain "0x1234567890" ethereumChain
    (.response (.objv sampleTx) (.ok (some sampleReceipt7)))).getD
    (get_fallback_transaction "0x")

/-- A world in which only Ethereum matches, with `sampleTx`/`sampleReceipt`. -/
def worldFound : Chain → FetchResult := fun c =>
  if c.name == "Ethereum" then
    FetchResult.response (.objv sampleTx) (.ok (some sampleReceipt))
  else FetchResult.netErr

/-! ### Helper lemmas -/

theorem findSome_append {α β : Type} (l1 l2 : List α) (f : α → Option β) :
    (l1 ++ l2).findSome? f =
      match l1.findSome? f with
      | some b => some b
      | none => l2.findSome? f := by
  induction l1 with
  | nil => simp [List.findSome?]
  | cons a l ih =>
    simp only [List.cons_append, List.findSome?]
    cases f a <;> simp [ih]

theorem findSome_eq_none_iff {α β : Type} (l : List α) (f : α → Option β) :
    l.findSome? f = none ↔ ∀ x ∈ l, f x = none := by
  induction l with
  | nil => simp [List.findSome?]
  | cons a l ih =>
    simp only [List.findSome?]
    cases h : f a <;> simp [h, ih]

theorem findSome_first {α β : Type} (l : List α) (f : α → Option β) (b : β)
    (h : l.findSome? f = some b) :
    ∃ pre x post, l = pre ++ x :: post ∧ (∀ y ∈ pre, f y = none) ∧ f x = some b := by
  induction l with
  | nil => simp [List.findSome?] at h
  | cons a l ih =>
    simp only [List.findSome?] at h
    cases ha : f a with
    | some c =>
      rw [ha] at h
      simp only [Option.some.injEq] at h
      exact ⟨[], a, l, by simp, by simp, by rw [ha, h]⟩
    | none =>
      rw [ha] at h
      simp only at h
      obtain ⟨pre, x, post, hl, hpre, hx⟩ := ih h
      exact ⟨a :: pre, x, post, by simp [hl], by simpa [ha] using hpre, hx⟩

/-- Decomposition of a successful `fetch_tx_from_chain` run into its parsed
components and the exact record built from them. -/
theorem fetch_found_spec (tx_hash : String) (chain : Chain) (tx : RawTx)
    (receipt : Option RawReceipt) (ntx : NormalizedTx)
    (h : fetch_tx_from_chain tx_hash chain (.response (.objv tx) (.ok receipt)) = some ntx) :
    ∃ value_wei gas_price_wei gas_limit block_number gas_used nonce token_transfers,
      parseHex? (tx.value.getD "0x0") = some value_wei ∧
      parseHex? (tx.gasPrice.getD "0x0") = some gas_price_wei ∧
      parseHex? (tx.gas.getD "0x0") = some gas_limit ∧
      parseHex? (tx.blockNumber.getD "0x0") = some block_number ∧
      gasUsedOf receipt gas_limit = some gas_used ∧
      parseHex? (tx.nonce.getD "0x0") = some nonce ∧
      collectTransfers (receiptLogs receipt) = some token_transfers ∧
      ntx = { hash := tx_hash
              fromAddr := tx.fromAddr.getD "unknown"
              toAddr := pyOrStr tx.toAddr "Contract Creation"
              value := if value_wei > 0 then
                         formatFixed value_wei (10 ^ 18) 6 ++ " " ++ chain.symbol
                       else "0 " ++ chain.symbol
              gasUsed := gas_used
              gasPrice := formatFixed gas_price_wei (10 ^ 9) 2 ++ " gwei"
              gasFeeETH := formatFixed (gas_used * gas_price_wei) (10 ^ 18) 6 ++ " " ++ chain.symbol
              blockNumber := block_number
              status := if receiptSuccess receipt then "Success" else "Failed"
              chain := chain.name
              chainExplorer := chain.explorer ++ "/tx/" ++ tx_hash
              symbol := chain.symbol
              tokenTransfers := token_transfers.take 5
              isContractCall := tx.inputData.getD "0x" != "0x"
              inputData := (tx.inputData.getD "0x").take 100
              nonce := nonce } := by
  unfold fetch_tx_from_chain at h
  dsimp only at h
  dsimp only [Bind.bind] at h
  simp only [Option.bind_eq_some, Option.some.injEq] at h
  obtain ⟨vw, hvw, gpw, hgpw, gl, hgl, bn, hbn, gu, hgu, non, hnon, ts, hts, hrec⟩ := h
  exact ⟨vw, gpw, gl, bn, gu, non, ts, hvw, hgpw, hgl, hbn, hgu, hnon, hts, hrec.symm⟩

theorem fetch_netErr_none (tx_hash : String) (chain : Chain) :
    fetch_tx_from_chain tx_hash chain .netErr = none := rfl

theorem fetch_hash_eq (tx_hash : String) (chain : Chain) (fr : FetchResult)
    (ntx : NormalizedTx) (h : fetch_tx_from_chain tx_hash chain fr = some ntx) :
    ntx.hash = tx_hash := by
  match fr with
  | .netErr => exact Option.noConfusion h
  | .response .absent _ => exact Option.noConfusion h
  | .response .nullv _ => exact Option.noConfusion h
  | .response (.strv _) _ => exact Option.noConfusion h
  | .response (.objv tx) .err => exact Option.noConfusion h
  | .response (.objv tx) (.ok receipt) =>
    obtain ⟨_, _, _, _, _, _, _, _, _, _, _, _, _, _, hrec⟩ :=
      fetch_found_spec _ _ _ _ _ h
    rw [hrec]

theorem fetch_real_eq (tx_hash : String) (world : Chain → FetchResult) :
    fetch_real_transaction tx_hash world =
      ETHERSCAN_V2_CHAINS.findSome? (fun c => fetch_tx_from_chain tx_hash c (world c)) := by
  unfold fetch_real_transaction
  conv_rhs => rw [← List.take_append_drop 6 ETHERSCAN_V2_CHAINS]
  rw [findSome_append]
  dsimp only
  cases List.findSome? (fun c => fetch_tx_from_chain tx_hash c (world c))
      (List.take 6 ETHERSCAN_V2_CHAINS) <;> rfl

theorem fetch_real_none_iff (tx_hash : String) (world : Chain → FetchResult) :
    fetch_real_transaction tx_hash world = none ↔
      ∀ c ∈ ETHERSCAN_V2_CHAINS, fetch_tx_from_chain tx_hash c (world c) = none := by
  rw [fetch_real_eq]
  exact findSome_eq_none_iff _ _

theorem collectTransfers_eq_filter_decodeAll (logs : List RawLog) :
    collectTransfers logs = decodeAll (logs.filter qualifies) := by
  induction logs with
  | nil => rfl
  | cons log rest ih =>
    by_cases hq : qualifies log
    · simp [collectTransfers, decodeAll, List.filter, hq, ih]
    · simp [collectTransfers, List.filter, hq, ih]

theorem tx_data_hash_eq (t : String) (world : Chain → FetchResult) :
    ((fetch_real_transaction t world).getD (get_fallback_transaction t)).hash = t := by
  cases hfr : fetch_real_transaction t world with
  | none => rfl
  | some ntx =>
    rw [fetch_real_eq] at hfr
    obtain ⟨pre, c, post, _, _, hx⟩ := findSome_first _ _ _ hfr
    simpa using fetch_hash_eq _ _ _ _ hx

/-- Evaluation of the route on a dict body whose stripped hash passes
validation. -/
theorem analyze_valid_eq (d : List (String × JVal)) (raw : String)
    (world : Chain → FetchResult) (env : OGEnv) (attempts : Nat → AttemptOutcome)
    (rand_hex : String)
    (hget : getField d "txHash" = some (.s raw))
    (hne : (pyTrim raw) ≠ "") (hpre : strStartsWith (pyTrim raw) "0x" = true)
    (hlen : 10 ≤ (pyTrim raw).length) :
    analyze_transaction (some d) world env attempts rand_hex =
      .ok200
        { transaction := mkTxBlock ((fetch_real_transaction (pyTrim raw) world).getD
            (get_fallback_transaction (pyTrim raw)))
          explanation := (analyze_transaction_data
            ((fetch_real_transaction (pyTrim raw) world).getD (get_fallback_transaction (pyTrim raw)))
            (call_opengradient env attempts 2) rand_hex).explanation
          proof := (analyze_transaction_data
            ((fetch_real_transaction (pyTrim raw) world).getD (get_fallback_transaction (pyTrim raw)))
            (call_opengradient env attempts 2) rand_hex).proof } := by
  have hd : d.isEmpty = false := by
    cases d with
    | nil => simp [getField] at hget
    | cons a l => rfl
  unfold analyze_transaction
  simp [hd, hget, pyStrip, hne, hpre, Nat.not_lt.mpr hlen]

/-! ### Claim theorems -/

/-- C1: whenever the explanation pipeline obtains no AI result
(`call_opengradient` returns `none`: client unavailable or misconfigured,
retries exhausted, or no non-empty explanation extracted), the proof block
has mode "MOCK", `verifiedByTEE = false`, and the randomly generated
placeholder payment hash `"0x" ++ rand_hex`; whenever inference succeeds
the proof has mode "LIVE", `verifiedByTEE = true`, and the real settlement
reference, or the sentinel `"verified-no-settlement"` when the reference is
absent (or empty). -/
theorem claim1_proof_modes (tx_data : NormalizedTx) (env : OGEnv)
    (attempts : Nat → AttemptOutcome) (rand_hex : String) :
    (call_opengradient env attempts 2 = none →
      (analyze_transaction_data tx_data (call_opengradient env attempts 2) rand_hex).proof.mode
          = "MOCK" ∧
      (analyze_transaction_data tx_data (call_opengradient env attempts 2) rand_hex).proof.verifiedByTEE
          = false ∧
      (analyze_transaction_data tx_data (call_opengradient env attempts 2) rand_hex).proof.paymentHash
          = "0x" ++ rand_hex) ∧
    (∀ r, call_opengradient env attempts 2 = some r →
      (analyze_transaction_data tx_data (call_opengradient env attempts 2) rand_hex).proof.mode
          = "LIVE" ∧
      (analyze_transaction_data tx_data (call_opengradient env attempts 2) rand_hex).proof.verifiedByTEE
          = true ∧
      (∀ ph, r.payment_hash = some ph → ph ≠ "" →
        (analyze_transaction_data tx_data (call_opengradient env attempts 2) rand_hex).proof.paymentHash
            = ph) ∧
      ((r.payment_hash = none ∨ r.payment_hash = some "") →
        (analyze_transaction_data tx_data (call_opengradient env attempts 2) rand_hex).proof.paymentHash
            = "verified-no-settlement")) := by
  constructor
  · intro h
    rw [h]
    exact ⟨rfl, rfl, rfl⟩
  · intro r h
    rw [h]
    refine ⟨rfl, rfl, ?_, ?_⟩
    · intro ph hph hphne
      simp [analyze_transaction_data, pyOrStr, hph, hphne]
    · rintro (hph | hph) <;> simp [analyze_transaction_data, pyOrStr, hph]

/-- C1 witness: with no SDK available the call yields no result and the
response proof is MOCK / not TEE-verified / placeholder hash. -/
theorem claim1_witness :
    call_opengradient envDown attDown 2 = none ∧
    (analyze_transaction_data (get_fallback_transaction "0x1234567890")
        (call_opengradient envDown attDown 2) "cafe").proof.mode = "MOCK" ∧
    (analyze_transaction_data (get_fallback_transaction "0x1234567890")
        (call_opengradient envDown attDown 2) "cafe").proof.verifiedByTEE = false ∧
    (analyze_transaction_data (get_fallback_transaction "0x1234567890")
        (call_opengradient envDown attDown 2) "cafe").proof.paymentHash = "0x" ++ "cafe" :=
  ⟨rfl, (claim1_proof_modes (get_fallback_transaction "0x1234567890") envDown attDown "cafe").1 rfl⟩

/-- C2 counterexample: the first attempt raises an ordinary connection
error — not a transient payment/settlement error — yet the code retries
and returns the second attempt's success, instead of aborting immediately
without retry as the claim states (with a single attempt allowed, the same
schedule yields nothing, showing the success indeed came from the retry). -/
theorem claim2_counterexample :
    call_opengradient envUp attRetry 2 =
      some { explanation := "All good", payment_hash := none } ∧
    call_opengradient envUp attRetry 1 = none ∧
    attRetry 1 = AttemptOutcome.err "connection refused" :=
  ⟨rfl, rfl, rfl⟩

/-- C2 (amended): the inference client is called with a bounded number of
attempts (`max_retries`, 2 at the call site) and a fixed 2-second sleep
before each retry; a retry is performed after ANY raised error (the code
does not inspect the error kind, so not only transient payment/settlement
errors) and likewise after an attempt whose extracted explanation is empty;
with no usable client no attempt is made. -/
theorem claim2_retry_behavior (env : OGEnv) (msg1 msg2 e : String)
    (ph : Option String) (attempts : Nat → AttemptOutcome)
    (henv : get_og_client env = true) (he : e ≠ "") :
    call_opengradient env (fun i => if i = 1 then .err msg1 else .ok (some e) ph) 2 =
      some { explanation := e, payment_hash := ph } ∧
    call_opengradient env (fun i => .err (if i = 1 then msg1 else msg2)) 2 = none ∧
    call_opengradient env (fun i => if i = 1 then .ok (some "") ph else .ok (some e) ph) 2 =
      some { explanation := e, payment_hash := ph } ∧
    call_opengradient envDown attempts 2 = none := by
  refine ⟨?_, ?_, ?_, rfl⟩ <;> simp [call_opengradient, henv, og_loop, he]

/-- C2 witness for the amended statement. -/
theorem claim2_witness :
    get_og_client envUp = true ∧ ("All good" : String) ≠ "" ∧
    call_opengradient envUp
        (fun i => if i = 1 then .err "connection refused" else .ok (some "All good") none) 2 =
      some { explanation := "All good", payment_hash := none } :=
  ⟨rfl, by decide,
    (claim2_retry_behavior envUp "connection refused" "x" "All good" none attDown rfl
      (by decide)).1⟩

/-- C9: a well-formed JSON body whose `txHash` is a number (not a string)
makes the route return the generic 500 — not the 400 client error — because
`.strip()` on a non-string raises and is caught only at the route
boundary. -/
theorem claim9_nonstring_txhash :
    analyze_transaction (some [("txHash", JVal.n 5)]) worldDown envDown attDown "cafe" =
      HttpResult.err500 ∧
    httpStatus (analyze_transaction (some [("txHash", JVal.n 5)]) worldDown envDown attDown "cafe")
      = 500 :=
  ⟨rfl, rfl⟩

/-- C3 counterexample: the body's `txHash` is `" 0x1234567890"`, a string
that does not start with `"0x"` (it starts with a space), so the claim as
stated requires a 400 response; the endpoint instead strips whitespace
before validating and answers 200. -/
theorem claim3_counterexample :
    httpStatus (analyze_transaction (some [("txHash", JVal.s " 0x1234567890")])
        worldDown envDown attDown "cafe") = 200 ∧
    strStartsWith " 0x1234567890" "0x" = false := ⟨rfl, rfl⟩

/-- C3 (amended): for every JSON-object request body (or absent body), when
the `txHash` field is missing, or its string value after whitespace
stripping is empty, does not start with "0x", or is shorter than 10
characters, the endpoint returns HTTP 400 with an error message. -/
theorem claim3_validation (d : List (String × JVal)) (world : Chain → FetchResult)
    (env : OGEnv) (attempts : Nat → AttemptOutcome) (rand_hex : String) :
    (getField d "txHash" = none →
      analyze_transaction (some d) world env attempts rand_hex =
        .err400 "Please provide a transaction hash.") ∧
    (∀ raw, getField d "txHash" = some (.s raw) → (pyTrim raw) = "" →
      analyze_transaction (some d) world env attempts rand_hex =
        .err400 "Please provide a transaction hash.") ∧
    (∀ raw, getField d "txHash" = some (.s raw) → (pyTrim raw) ≠ "" →
      (strStartsWith (pyTrim raw) "0x" = false ∨ (pyTrim raw).length < 10) →
      analyze_transaction (some d) world env attempts rand_hex =
        .err400 "Hash must start with \x270x\x27 and be valid hex.") ∧
    analyze_transaction none world env attempts rand_hex =
      .err400 "Please provide a transaction hash." := by
  refine ⟨?_, ?_, ?_, rfl⟩
  · intro hget
    unfold analyze_transaction
    cases d with
    | nil => rfl
    | cons a l => simp [hget, pyStrip, show pyTrim "" = "" from rfl]
  · intro raw hget htrim
    have hd : d.isEmpty = false := by
      cases d with
      | nil => simp [getField] at hget
      | cons a l => rfl
    unfold analyze_transaction
    simp [hd, hget, pyStrip, htrim]
  · intro raw hget hne hbad
    have hd : d.isEmpty = false := by
      cases d with
      | nil => simp [getField] at hget
      | cons a l => rfl
    unfold analyze_transaction
    rcases hbad with hbad | hbad
    · simp [hd, hget, pyStrip, hne, hbad]
    · simp [hd, hget, pyStrip, hne, hbad]

/-- C3 witness (the spec's own example): `{"txHash": "0x01"}` is rejected
with the hex-format 400 message. -/
theorem claim3_witness :
    getField [("txHash", JVal.s "0x01")] "txHash" = some (JVal.s "0x01") ∧
    (pyTrim "0x01") ≠ "" ∧ (pyTrim "0x01").length < 10 ∧
    analyze_transaction (some [("txHash", JVal.s "0x01")]) worldDown envDown attDown "cafe" =
      .err400 "Hash must start with \x270x\x27 and be valid hex." :=
  ⟨rfl, by decide, by decide,
    (claim3_validation [("txHash", JVal.s "0x01")] worldDown envDown attDown "cafe").2.2.1
      "0x01" rfl (by decide) (Or.inr (by decide))⟩

/-- C4: a hash found on no configured chain produces the structurally
complete fallback record — "Unknown" chain and status, zero gas used, zero
block and nonce, "unknown" string sentinels for the amounts, empty transfer
list — and exactly this record (projected by `mkTxBlock`) is the
response's transaction block. -/
theorem claim4_fallback (d : List (String × JVal)) (raw : String)
    (world : Chain → FetchResult) (env : OGEnv) (attempts : Nat → AttemptOutcome)
    (rand_hex : String)
    (hget : getField d "txHash" = some (.s raw))
    (hne : (pyTrim raw) ≠ "") (hpre : strStartsWith (pyTrim raw) "0x" = true)
    (hlen : 10 ≤ (pyTrim raw).length)
    (hmiss : ∀ c ∈ ETHERSCAN_V2_CHAINS, fetch_tx_from_chain (pyTrim raw) c (world c) = none) :
    get_fallback_transaction (pyTrim raw) =
      { hash := (pyTrim raw), fromAddr := "unknown", toAddr := "unknown", value := "unknown",
        gasUsed := 0, gasPrice := "unknown", gasFeeETH := "unknown", blockNumber := 0,
        status := "Unknown", chain := "Unknown", chainExplorer := "", symbol := "ETH",
        tokenTransfers := [], isContractCall := false, inputData := "0x", nonce := 0 } ∧
    ∃ body, analyze_transaction (some d) world env attempts rand_hex = .ok200 body ∧
      body.transaction = mkTxBlock (get_fallback_transaction (pyTrim raw)) ∧
      body.transaction.chain = "Unknown" ∧ body.transaction.status = "Unknown" ∧
      body.transaction.gasUsed = 0 ∧ body.transaction.tokenTransfers = [] := by
  have hnone : fetch_real_transaction (pyTrim raw) world = none :=
    (fetch_real_none_iff (pyTrim raw) world).mpr hmiss
  refine ⟨rfl, ?_⟩
  rw [analyze_valid_eq d raw world env attempts rand_hex hget hne hpre hlen]
  rw [hnone]
  exact ⟨_, rfl, rfl, rfl, rfl, rfl, rfl⟩

/-- C4 witness: a world in which every chain lookup fails. -/
theorem claim4_witness :
    getField [("txHash", JVal.s "0x1234567890")] "txHash" = some (JVal.s "0x1234567890") ∧
    get_fallback_transaction (pyTrim "0x1234567890") =
      { hash := (pyTrim "0x1234567890"), fromAddr := "unknown", toAddr := "unknown",
        value := "unknown", gasUsed := 0, gasPrice := "unknown", gasFeeETH := "unknown",
        blockNumber := 0, status := "Unknown", chain := "Unknown", chainExplorer := "",
        symbol := "ETH", tokenTransfers := [], isContractCall := false, inputData := "0x",
        nonce := 0 } ∧
    ∃ body, analyze_transaction (some [("txHash", JVal.s "0x1234567890")])
        worldDown envDown attDown "cafe" = .ok200 body ∧
      body.transaction = mkTxBlock (get_fallback_transaction (pyTrim "0x1234567890")) ∧
      body.transaction.chain = "Unknown" ∧ body.transaction.status = "Unknown" ∧
      body.transaction.gasUsed = 0 ∧ body.transaction.tokenTransfers = [] :=
  ⟨rfl,
    (claim4_fallback [("txHash", JVal.s "0x1234567890")] "0x1234567890"
      worldDown envDown attDown "cafe" rfl (by decide) (by decide) (by decide)
      (fun c _ => rfl)).1,
    (claim4_fallback [("txHash", JVal.s "0x1234567890")] "0x1234567890"
      worldDown envDown attDown "cafe" rfl (by decide) (by decide) (by decide)
      (fun c _ => rfl)).2⟩

/-- C10: for every valid request, the response's transaction hash equals
the submitted `txHash` after whitespace stripping, on the fetched path
(every successful per-chain fetch copies the stripped hash) and on the
fallback path alike. -/
theorem claim10_hash_preserved (d : List (String × JVal)) (raw : String)
    (world : Chain → FetchResult) (env : OGEnv) (attempts : Nat → AttemptOutcome)
    (rand_hex : String)
    (hget : getField d "txHash" = some (.s raw))
    (hne : (pyTrim raw) ≠ "") (hpre : strStartsWith (pyTrim raw) "0x" = true)
    (hlen : 10 ≤ (pyTrim raw).length) :
    (∃ body, analyze_transaction (some d) world env attempts rand_hex = .ok200 body ∧
      body.transaction.hash = (pyTrim raw)) ∧
    (∀ chain fr ntx, fetch_tx_from_chain (pyTrim raw) chain fr = some ntx → ntx.hash = (pyTrim raw)) ∧
    (get_fallback_transaction (pyTrim raw)).hash = (pyTrim raw) := by
  refine ⟨?_, fun chain fr ntx h => fetch_hash_eq _ _ _ _ h, rfl⟩
  rw [analyze_valid_eq d raw world env attempts rand_hex hget hne hpre hlen]
  exact ⟨_, rfl, tx_data_hash_eq (pyTrim raw) world⟩

/-- C10 witness: a world in which Ethereum matches the hash. -/
theorem claim10_witness :
    getField [("txHash", JVal.s "0x1234567890")] "txHash" = some (JVal.s "0x1234567890") ∧
    (∃ body, analyze_transaction (some [("txHash", JVal.s "0x1234567890")])
        worldFound envDown attDown "cafe" = .ok200 body ∧
      body.transaction.hash = (pyTrim "0x1234567890")) :=
  ⟨rfl,
    (claim10_hash_preserved [("txHash", JVal.s "0x1234567890")] "0x1234567890"
      worldFound envDown attDown "cafe" rfl (by decide) (by decide) (by decide)).1⟩

/-- C5: a normalized transaction built by the fetcher has status "Success"
only if a receipt was retrieved whose status field is "0x1"; otherwise its
status is "Failed", and the fallback record's status is "Unknown". -/
theorem claim5_status_invariant (tx_hash : String) (chain : Chain) (fr : FetchResult)
    (ntx : NormalizedTx) (h : fetch_tx_from_chain tx_hash chain fr = some ntx) :
    (ntx.status = "Success" →
      ∃ tx rc, fr = .response (.objv tx) (.ok (some rc)) ∧ rc.status = some "0x1") ∧
    (ntx.status = "Success" ∨ ntx.status = "Failed") ∧
    ∀ s, (get_fallback_transaction s).status = "Unknown" := by
  match fr with
  | .netErr => exact Option.noConfusion h
  | .response .absent _ => exact Option.noConfusion h
  | .response .nullv _ => exact Option.noConfusion h
  | .response (.strv _) _ => exact Option.noConfusion h
  | .response (.objv tx) .err => exact Option.noConfusion h
  | .response (.objv tx) (.ok receipt) =>
    obtain ⟨_, _, _, _, _, _, _, _, _, _, _, _, _, _, hrec⟩ :=
      fetch_found_spec _ _ _ _ _ h
    have hstat : ntx.status = if receiptSuccess receipt then "Success" else "Failed" := by
      rw [hrec]
    refine ⟨?_, ?_, fun s => rfl⟩
    · intro hs
      rw [hstat] at hs
      by_cases hrs : receiptSuccess receipt
      · cases receipt with
        | none => simp [receiptSuccess] at hrs
        | some rc =>
          refine ⟨tx, rc, rfl, ?_⟩
          simpa [receiptSuccess] using hrs
      · rw [if_neg hrs] at hs
        exact absurd hs (by decide)
    · rw [hstat]
      by_cases hrs : receiptSuccess receipt
      · exact Or.inl (if_pos hrs)
      · exact Or.inr (if_neg hrs)

/-- C5 witness: a fetched transaction whose receipt has status "0x1". -/
theorem claim5_witness :
    fetch_tx_from_chain "0x1234567890" ethereumChain
        (.response (.objv sampleTx) (.ok (some sampleReceipt))) = some sampleNtx ∧
    sampleNtx.status = "Success" ∧
    (∃ tx rc, (FetchResult.response (.objv sampleTx) (.ok (some sampleReceipt))) =
        FetchResult.response (.objv tx) (.ok (some rc)) ∧ rc.status = some "0x1") :=
  ⟨rfl, rfl,
    (claim5_status_invariant "0x1234567890" ethereumChain
      (.response (.objv sampleTx) (.ok (some sampleReceipt))) sampleNtx rfl).1 rfl⟩

/-- C6: for every successfully fetched transaction, the reported gas fee is
`gasUsed × gasPrice` (both parsed from the chain responses, in wei) divided
by 10^18 and formatted to 6 decimal places, suffixed by the chain's native
symbol; in particular gasUsed 21000 at 30 gwei formats as "0.000630". -/
theorem claim6_gas_fee (tx_hash : String) (chain : Chain) (tx : RawTx)
    (receipt : Option RawReceipt) (ntx : NormalizedTx)
    (h : fetch_tx_from_chain tx_hash chain (.response (.objv tx) (.ok receipt)) = some ntx) :
    (∃ gas_price_wei, parseHex? (tx.gasPrice.getD "0x0") = some gas_price_wei ∧
      ntx.gasFeeETH =
        formatFixed (ntx.gasUsed * gas_price_wei) (10 ^ 18) 6 ++ " " ++ chain.symbol) ∧
    formatFixed (21000 * 30000000000) (10 ^ 18) 6 = "0.000630" := by
  obtain ⟨vw, gpw, gl, bn, gu, non, ts, hvw, hgpw, hgl, hbn, hgu, hnon, hts, hrec⟩ :=
    fetch_found_spec _ _ _ _ _ h
  refine ⟨⟨gpw, hgpw, ?_⟩, rfl⟩
  rw [hrec]

/-- C6 witness: 1.5 ETH at 30 gwei with gasUsed 21000 on Ethereum gives
value "1.500000 ETH" and gas fee "0.000630 ETH". -/
theorem claim6_witness :
    fetch_tx_from_chain "0x1234567890" ethereumChain
        (.response (.objv sampleTx) (.ok (some sampleReceipt))) = some sampleNtx ∧
    (∃ gas_price_wei, parseHex? (sampleTx.gasPrice.getD "0x0") = some gas_price_wei ∧
      sampleNtx.gasFeeETH =
        formatFixed (sampleNtx.gasUsed * gas_price_wei) (10 ^ 18) 6 ++ " " ++
          ethereumChain.symbol) ∧
    sampleNtx.gasFeeETH = "0.000630 ETH" ∧ sampleNtx.value = "1.500000 ETH" ∧
    sampleNtx.gasUsed = 21000 :=
  ⟨rfl,
    (claim6_gas_fee "0x1234567890" ethereumChain sampleTx (some sampleReceipt)
      sampleNtx rfl).1, rfl, rfl, rfl⟩

/-- C7: token-transfer extraction decodes exactly the logs whose first
topic is the ERC-20 Transfer signature and which have at least three
topics, taking sender/recipient from the last 40 characters of the second
and third topics and the amount from the data field, and the normalized
transaction keeps at most the first 5 decoded transfers. -/
theorem claim7_token_transfers (tx_hash : String) (chain : Chain) (tx : RawTx)
    (receipt : Option RawReceipt) (ntx : NormalizedTx)
    (h : fetch_tx_from_chain tx_hash chain (.response (.objv tx) (.ok receipt)) = some ntx) :
    ntx.tokenTransfers.length ≤ 5 ∧
    (∃ all, collectTransfers (receiptLogs receipt) = some all ∧
      decodeAll ((receiptLogs receipt).filter qualifies) = some all ∧
      ntx.tokenTransfers = all.take 5) ∧
    (∀ log : RawLog, qualifies log = true ↔
      log.topics ≠ [] ∧ log.topics.headD "" = transfer_topic ∧ 3 ≤ log.topics.length) ∧
    (∀ (log : RawLog) (amt : Nat), parseHex? (log.data.getD "0x0") = some amt →
      decodeTransfer log = some
        { token := log.address.take 10 ++ "..."
          amount := toString amt
          fromAddr := "0x" ++ (log.topics.getD 1 "").takeRight 40
          toAddr := "0x" ++ (log.topics.getD 2 "").takeRight 40 }) := by
  obtain ⟨vw, gpw, gl, bn, gu, non, ts, hvw, hgpw, hgl, hbn, hgu, hnon, hts, hrec⟩ :=
    fetch_found_spec _ _ _ _ _ h
  refine ⟨?_, ⟨ts, hts, ?_, ?_⟩, ?_, ?_⟩
  · rw [hrec]
    exact List.length_take_le 5 ts
  · rw [← collectTransfers_eq_filter_decodeAll]
    exact hts
  · rw [hrec]
  · intro log
    simp [qualifies, List.isEmpty_iff, and_assoc]
  · intro log amt hamt
    simp [decodeTransfer, hamt]

/-- C7 witness: seven qualifying logs yield exactly five kept transfers. -/
theorem claim7_witness :
    fetch_tx_from_chain "0x1234567890" ethereumChain
        (.response (.objv sampleTx) (.ok (some sampleReceipt7))) = some sampleNtx7 ∧
    sampleNtx7.tokenTransfers.length ≤ 5 ∧
    sampleNtx7.tokenTransfers.length = 5 ∧
    (sampleReceipt7.logs.filter qualifies).length = 7 :=
  ⟨rfl,
    (claim7_token_transfers "0x1234567890" ethereumChain sampleTx (some sampleReceipt7)
      sampleNtx7 rfl).1, rfl, rfl⟩

/-- C8: the fetcher scans the first six registry chains and then the
remainder (together exactly the registry in order), returns the first
chain's successful normalized result, treats every per-chain network error
and every absent/null/string response as not-found on that chain, and
yields the fallback-triggering `none` exactly when all chains fail. -/
theorem claim8_chain_scan (tx_hash : String) (world : Chain → FetchResult) :
    ETHERSCAN_V2_CHAINS.take 6 ++ ETHERSCAN_V2_CHAINS.drop 6 = ETHERSCAN_V2_CHAINS ∧
    fetch_real_transaction tx_hash world =
      ETHERSCAN_V2_CHAINS.findSome? (fun c => fetch_tx_from_chain tx_hash c (world c)) ∧
    (∀ chain, fetch_tx_from_chain tx_hash chain .netErr = none) ∧
    (∀ chain ro s, fetch_tx_from_chain tx_hash chain (.response .absent ro) = none ∧
      fetch_tx_from_chain tx_hash chain (.response .nullv ro) = none ∧
      fetch_tx_from_chain tx_hash chain (.response (.strv s) ro) = none) ∧
    (∀ ntx, fetch_real_transaction tx_hash world = some ntx →
      ∃ pre c post, ETHERSCAN_V2_CHAINS = pre ++ c :: post ∧
        (∀ c2 ∈ pre, fetch_tx_from_chain tx_hash c2 (world c2) = none) ∧
        fetch_tx_from_chain tx_hash c (world c) = some ntx) ∧
    (fetch_real_transaction tx_hash world = none ↔
      ∀ c ∈ ETHERSCAN_V2_CHAINS, fetch_tx_from_chain tx_hash c (world c) = none) := by
  refine ⟨List.take_append_drop 6 _, fetch_real_eq _ _, fun chain => rfl,
    fun chain ro s => ⟨rfl, rfl, rfl⟩, ?_, fetch_real_none_iff _ _⟩
  intro ntx hntx
  rw [fetch_real_eq] at hntx
  exact findSome_first _ _ _ hntx

/-- C8 witness: with every chain erroring, the fetcher returns `none`. -/
theorem claim8_witness :
    fetch_real_transaction "0x1234567890" worldDown = none :=
  (claim8_chain_scan "0x1234567890" worldDown).2.2.2.2.2.mpr
    (fun c _ => (claim8_chain_scan "0x1234567890" worldDown).2.2.1 c)
